import Mathlib

/-!
Shallow embedding of `src/src/verifier.rs` from darklake-groth16: the Groth16
verification path (`prepare_verifying_key`, `prepare_inputs_with_variables`,
`verify_with_variables`, `verify_proof_with_prepared_inputs`).

Machine structure is modelled as follows: the arkworks `Pairing` engine is a
bundled record of carrier types and the operations the verifier calls
(scalar multiplication, group addition, negation, preparation maps, the
multi-Miller loop and final exponentiation).  Rust slices become `List`s,
fallible `Result` becomes `Except`, and a Rust panic (an out-of-bounds slice
index) is modelled as `none` in an outer `Option`: `none` means the call has
no defined result.
-/

namespace DarklakeGroth16

/-- Modelled from the spec: the two error kinds of the verification layer
(section 7): `MalformedVerifyingKey` and `UnexpectedIdentity`.  The error
enumeration itself (`SynthesisError` of `ark_relations`) is external to the
repository's sources; only these two variants are ever produced by
`verifier.rs`. -/
inductive SynthesisError where
  | MalformedVerifyingKey
  | UnexpectedIdentity
  deriving DecidableEq

/-- Equality of `Except` values is decidable when it is on both components;
used to evaluate the embedding's results on concrete inputs. -/
instance {ε α : Type _} [DecidableEq ε] [DecidableEq α] :
    DecidableEq (Except ε α) := fun x y =>
  match x, y with
  | Except.error a, Except.error b =>
    if h : a = b then Decidable.isTrue (by rw [h])
    else Decidable.isFalse (fun hc => h (by cases hc; rfl))
  | Except.error _, Except.ok _ =>
    Decidable.isFalse (fun hc => Except.noConfusion hc)
  | Except.ok _, Except.error _ =>
    Decidable.isFalse (fun hc => Except.noConfusion hc)
  | Except.ok a, Except.ok b =>
    if h : a = b then Decidable.isTrue (by rw [h])
    else Decidable.isFalse (fun hc => h (by cases hc; rfl))

/-- The external pairing-primitive provider, as consumed by `verifier.rs`:
first- and second-group carriers, target field, Miller-loop output, scalar
field, "prepared" representations, and the operations the verifier calls.
`pairing` folds arkworks' `E::pairing(..).0` (the target-field component);
`final_exponentiation` folds `E::final_exponentiation(..)` and the `.0`
projection into one partial map. -/
structure PairingEngine where
  G1 : Type
  G2 : Type
  TargetField : Type
  MillerLoopOutput : Type
  ScalarField : Type
  G1Prepared : Type
  G2Prepared : Type
  g1add : G1 → G1 → G1
  g1smul : ScalarField → G1 → G1
  g2neg : G2 → G2
  g1prep : G1 → G1Prepared
  g2prep : G2 → G2Prepared
  multi_miller_loop : List G1Prepared → List G2Prepared → MillerLoopOutput
  final_exponentiation : MillerLoopOutput → Option TargetField
  pairing : G1 → G2 → TargetField
  tfDecEq : DecidableEq TargetField

/-- Modelled from the spec: the verifying key of section 3 (its struct
declaration lives outside `src/`; the fields are those `verifier.rs` reads):
alpha in G1, beta/gamma/delta in G2, and the split `gamma_abc` coefficient
sequences for static and variable public inputs. -/
structure VerifyingKey (E : PairingEngine) where
  alpha_g1 : E.G1
  beta_g2 : E.G2
  gamma_g2 : E.G2
  delta_g2 : E.G2
  gamma_abc_g1_static : List E.G1
  gamma_abc_g1_variable : List E.G1

/-- Modelled from the spec: the prepared verifying key of section 3 (struct
declared outside `src/`; fields are those `verifier.rs` constructs and
reads): a copy of the key, the alpha-beta pairing value in the target field,
and the prepared negations of gamma and delta. -/
structure PreparedVerifyingKey (E : PairingEngine) where
  vk : VerifyingKey E
  alpha_g1_beta_g2 : E.TargetField
  gamma_g2_neg_pc : E.G2Prepared
  delta_g2_neg_pc : E.G2Prepared

/-- Modelled from the spec: a Groth16 proof (struct declared outside `src/`):
`a` and `c` in the first group, `b` in the second. -/
structure Proof (E : PairingEngine) where
  a : E.G1
  b : E.G2
  c : E.G1

/-- `prepare_verifying_key` of `verifier.rs`: pair alpha with beta once,
negate gamma and delta and convert each to the pairing-ready representation.
The `into_group`/`into_affine` round trips of the Rust code are
representation conversions folded into `g2neg`/`g2prep`. -/
def prepare_verifying_key (E : PairingEngine) (vk : VerifyingKey E) :
    PreparedVerifyingKey E :=
  { vk := vk
    alpha_g1_beta_g2 := E.pairing vk.alpha_g1 vk.beta_g2
    gamma_g2_neg_pc := E.g2prep (E.g2neg vk.gamma_g2)
    delta_g2_neg_pc := E.g2prep (E.g2neg vk.delta_g2) }

/-- One accumulation loop of `prepare_inputs_with_variables`: starting at
slice index `start`, add `coeffs[start + i] * inputs[i]` to the accumulator
for each `i` in order.  An out-of-bounds index is a Rust panic, modelled as
`none`. -/
def accumLoop (E : PairingEngine) (coeffs : List E.G1) :
    List E.ScalarField → Nat → E.G1 → Option E.G1
  | [], _, acc => some acc
  | x :: rest, start, acc =>
    match coeffs.get? start with
    | none => none
    | some c => accumLoop E coeffs rest (start + 1) (E.g1add acc (E.g1smul x c))

/-- `prepare_inputs_with_variables` of `verifier.rs`.  The length check
compares `static_inputs.len() + variable_inputs.len() + 1` against the
combined length of the two coefficient sequences; then the constant term
`gamma_abc_g1_static[0]` seeds the accumulator, the static loop reads
indices `1 + i` of the static sequence, and the variable loop reads indices
`static_inputs.len() + 1 + i` of the variable sequence (the `static_offset`
of the source).  `none` models an out-of-bounds panic. -/
def prepare_inputs_with_variables (E : PairingEngine)
    (pvk : PreparedVerifyingKey E)
    (static_inputs variable_inputs : List E.ScalarField) :
    Option (Except SynthesisError E.G1) :=
  let expected_total_inputs := static_inputs.length + variable_inputs.length
  if expected_total_inputs + 1 ≠
      pvk.vk.gamma_abc_g1_static.length + pvk.vk.gamma_abc_g1_variable.length
  then
    some (Except.error SynthesisError.MalformedVerifyingKey)
  else
    match pvk.vk.gamma_abc_g1_static.get? 0 with
    | none => none
    | some g0 =>
      match accumLoop E pvk.vk.gamma_abc_g1_static static_inputs 1 g0 with
      | none => none
      | some gStat =>
        match accumLoop E pvk.vk.gamma_abc_g1_variable variable_inputs
            (static_inputs.length + 1) gStat with
        | none => none
        | some gAll => some (Except.ok gAll)

/-- The multi-Miller-loop value `qap` computed by
`verify_proof_with_prepared_inputs`: first-group arguments
`[proof.a, prepared_inputs, proof.c]` against second-group arguments
`[proof.b, gamma_g2_neg_pc, delta_g2_neg_pc]`. -/
def miller_value (E : PairingEngine) (pvk : PreparedVerifyingKey E)
    (proof : Proof E) (prepared_inputs : E.G1) : E.MillerLoopOutput :=
  E.multi_miller_loop
    [E.g1prep proof.a, E.g1prep prepared_inputs, E.g1prep proof.c]
    [E.g2prep proof.b, pvk.gamma_g2_neg_pc, pvk.delta_g2_neg_pc]

/-- `verify_proof_with_prepared_inputs` of `verifier.rs`: final-exponentiate
the multi-Miller-loop value; `None` becomes the `UnexpectedIdentity` error,
otherwise the boolean comparison with the stored alpha-beta pairing value is
returned as a success. -/
def verify_proof_with_prepared_inputs (E : PairingEngine)
    (pvk : PreparedVerifyingKey E) (proof : Proof E)
    (prepared_inputs : E.G1) : Except SynthesisError Bool :=
  match E.final_exponentiation (miller_value E pvk proof prepared_inputs) with
  | none => Except.error SynthesisError.UnexpectedIdentity
  | some t =>
    letI : DecidableEq E.TargetField := E.tfDecEq
    Except.ok (decide (t = pvk.alpha_g1_beta_g2))

/-- `verify_with_variables` of `verifier.rs`: aggregate the inputs (the `?`
operator propagates the error), then run the prepared-inputs check.  The
outer `Option` propagates a panic of the aggregation step. -/
def verify_with_variables (E : PairingEngine) (pvk : PreparedVerifyingKey E)
    (proof : Proof E) (static_inputs variable_inputs : List E.ScalarField) :
    Option (Except SynthesisError Bool) :=
  match prepare_inputs_with_variables E pvk static_inputs variable_inputs with
  | none => none
  | some (Except.error e) => some (Except.error e)
  | some (Except.ok prepared_inputs) =>
    some (verify_proof_with_prepared_inputs E pvk proof prepared_inputs)

/-- A concrete engine over the integers, used to evaluate the embedding on
explicit inputs: both groups, the target field and the Miller-loop output are
`Int`; the Miller loop is the sum of pairwise products and final
exponentiation is undefined exactly at `0`. -/
@[reducible] def intEngine : PairingEngine where
  G1 := Int
  G2 := Int
  TargetField := Int
  MillerLoopOutput := Int
  ScalarField := Int
  G1Prepared := Int
  G2Prepared := Int
  g1add := fun a b => a + b
  g1smul := fun s g => s * g
  g2neg := fun x => -x
  g1prep := fun x => x
  g2prep := fun x => x
  multi_miller_loop := fun gs hs =>
    ((gs.zip hs).map fun p => p.1 * p.2).sum
  final_exponentiation := fun x => if x = 0 then none else some x
  pairing := fun a b => a * b
  tfDecEq := inferInstance

/-- A concrete verifying key over `intEngine`: one static coefficient (the
constant term) and one variable coefficient. -/
def vkOneVar : VerifyingKey intEngine :=
  { alpha_g1 := 2, beta_g2 := 3, gamma_g2 := 5, delta_g2 := 7
    gamma_abc_g1_static := [(5 : Int)]
    gamma_abc_g1_variable := [(7 : Int)] }

/-- The prepared form of `vkOneVar` (field values as `prepare_verifying_key`
over `intEngine` would produce them). -/
def pvkOneVar : PreparedVerifyingKey intEngine :=
  { vk := vkOneVar, alpha_g1_beta_g2 := 6
    gamma_g2_neg_pc := -5, delta_g2_neg_pc := -7 }

/-- A concrete prepared key with two static coefficients and one variable
coefficient. -/
def pvkTwoOne : PreparedVerifyingKey intEngine :=
  { vk := { alpha_g1 := 2, beta_g2 := 3, gamma_g2 := 5, delta_g2 := 7
            gamma_abc_g1_static := [(5 : Int), 6]
            gamma_abc_g1_variable := [(7 : Int)] }
    alpha_g1_beta_g2 := 6, gamma_g2_neg_pc := -5, delta_g2_neg_pc := -7 }

/-- A second prepared key with the same sequence lengths as `pvkTwoOne` but
different group values. -/
def pvkTwoOneB : PreparedVerifyingKey intEngine :=
  { vk := { alpha_g1 := 1, beta_g2 := 1, gamma_g2 := 2, delta_g2 := 2
            gamma_abc_g1_static := [(8 : Int), 9]
            gamma_abc_g1_variable := [(4 : Int)] }
    alpha_g1_beta_g2 := 1, gamma_g2_neg_pc := -2, delta_g2_neg_pc := -2 }

/-- A concrete prepared key whose static coefficient sequence is empty. -/
def pvkEmptyStatic : PreparedVerifyingKey intEngine :=
  { vk := { alpha_g1 := 2, beta_g2 := 3, gamma_g2 := 5, delta_g2 := 7
            gamma_abc_g1_static := []
            gamma_abc_g1_variable := [(7 : Int)] }
    alpha_g1_beta_g2 := 6, gamma_g2_neg_pc := -5, delta_g2_neg_pc := -7 }

/-- A concrete prepared key for exercising the pairing check: the stored
alpha-beta value is `1`. -/
def pvkPair : PreparedVerifyingKey intEngine :=
  { vk := { alpha_g1 := 1, beta_g2 := 1, gamma_g2 := 0, delta_g2 := 0
            gamma_abc_g1_static := [], gamma_abc_g1_variable := [] }
    alpha_g1_beta_g2 := 1, gamma_g2_neg_pc := 0, delta_g2_neg_pc := 0 }

/-- A concrete proof whose Miller-loop value against `pvkPair` with prepared
inputs `0` is `1` (nonzero, so final exponentiation succeeds). -/
def proofOne : Proof intEngine := { a := 1, b := 1, c := 0 }

/-- A concrete proof whose Miller-loop value against `pvkPair` with prepared
inputs `0` is `0`, making `intEngine`'s final exponentiation fail. -/
def proofZero : Proof intEngine := { a := 0, b := 0, c := 0 }

/-- When every index the loop will read is in bounds
(`start + inputs.length ≤ coeffs.length`), `accumLoop` completes without a
panic. -/
theorem accumLoop_isSome (E : PairingEngine) (coeffs : List E.G1) :
    ∀ (inputs : List E.ScalarField) (start : Nat) (acc : E.G1),
      start + inputs.length ≤ coeffs.length →
      ∃ g, accumLoop E coeffs inputs start acc = some g
  | [], _, acc, _ => ⟨acc, rfl⟩
  | x :: rest, start, acc, h => by
    have hlen : start + rest.length + 1 ≤ coeffs.length := by
      simp only [List.length_cons] at h
      omega
    have hlt : start < coeffs.length := by omega
    obtain ⟨c, hc⟩ : ∃ c, coeffs.get? start = some c := by
      cases hg : coeffs.get? start with
      | none => exact absurd (List.get?_eq_none.mp hg) (by omega)
      | some c => exact ⟨c, rfl⟩
    obtain ⟨g, hg⟩ := accumLoop_isSome E coeffs rest (start + 1)
      (E.g1add acc (E.g1smul x c)) (by omega)
    refine ⟨g, ?_⟩
    rw [accumLoop, hc]
    exact hg

/-- When the loop is nonempty and its last index is out of bounds
(`coeffs.length < start + inputs.length`), `accumLoop` panics. -/
theorem accumLoop_oob (E : PairingEngine) (coeffs : List E.G1) :
    ∀ (inputs : List E.ScalarField) (start : Nat) (acc : E.G1),
      inputs ≠ [] → coeffs.length < start + inputs.length →
      accumLoop E coeffs inputs start acc = none
  | [], _, _, hne, _ => absurd rfl hne
  | x :: rest, start, acc, _, h => by
    cases hg : coeffs.get? start with
    | none => rw [accumLoop, hg]
    | some c =>
      have hlt : start < coeffs.length := (List.get?_eq_some.mp hg).1
      have hrest : rest ≠ [] := by
        intro hnil
        subst hnil
        simp at h
        omega
      have hlen : coeffs.length < (start + 1) + rest.length := by
        have : start + (rest.length + 1) = start + 1 + rest.length := by omega
        simpa [List.length_cons, this] using h
      rw [accumLoop, hg]
      exact accumLoop_oob E coeffs rest (start + 1)
        (E.g1add acc (E.g1smul x c)) hrest hlen

/-- `prepare_inputs_with_variables` yields the `MalformedVerifyingKey` error
exactly when the combined validation fails: once the total-length check
passes, every branch of the accumulation returns either a panic (`none`) or
a success, never that error. -/
theorem prepare_inputs_malformed_iff (E : PairingEngine)
    (pvk : PreparedVerifyingKey E) (s v : List E.ScalarField) :
    prepare_inputs_with_variables E pvk s v =
        some (Except.error SynthesisError.MalformedVerifyingKey) ↔
      s.length + v.length + 1 ≠
        pvk.vk.gamma_abc_g1_static.length +
          pvk.vk.gamma_abc_g1_variable.length := by
  unfold prepare_inputs_with_variables
  by_cases h : s.length + v.length + 1 =
      pvk.vk.gamma_abc_g1_static.length + pvk.vk.gamma_abc_g1_variable.length
  · rw [if_neg (by omega)]
    simp only [h, not_true_eq_false, iff_false]
    cases hg0 : pvk.vk.gamma_abc_g1_static.get? 0 with
    | none => simp
    | some g0 =>
      simp only
      cases hs : accumLoop E pvk.vk.gamma_abc_g1_static s 1 g0 with
      | none => simp
      | some gStat =>
        simp only
        cases hv : accumLoop E pvk.vk.gamma_abc_g1_variable v (s.length + 1)
            gStat with
        | none => simp
        | some gAll => simp
  · rw [if_pos (by omega)]
    simp only [ne_eq, h, not_false_eq_true]

/-- C1: under the layout the claim assumes (static coefficient count =
static input count + 1, variable coefficient count = variable input count),
`prepare_inputs_with_variables` has no defined result for any nonempty
variable-input vector: the variable loop reads the variable sequence at
index `static_inputs.length + 1 + i`, and its last access, at index
`static_inputs.length + variable_inputs.length`, is always out of bounds.
The code therefore never returns the zero-indexed accumulation the claim
(and the spec) describe when variable inputs are present. -/
theorem claim1_variable_offset_panics (E : PairingEngine)
    (pvk : PreparedVerifyingKey E) (s v : List E.ScalarField)
    (hs : pvk.vk.gamma_abc_g1_static.length = s.length + 1)
    (hv : pvk.vk.gamma_abc_g1_variable.length = v.length)
    (hne : v ≠ []) :
    prepare_inputs_with_variables E pvk s v = none := by
  unfold prepare_inputs_with_variables
  rw [if_neg (by omega)]
  obtain ⟨g0, hg0⟩ : ∃ g0, pvk.vk.gamma_abc_g1_static.get? 0 = some g0 := by
    cases hg : pvk.vk.gamma_abc_g1_static.get? 0 with
    | none => exact absurd (List.get?_eq_none.mp hg) (by omega)
    | some g0 => exact ⟨g0, rfl⟩
  obtain ⟨gS, hgS⟩ := accumLoop_isSome E pvk.vk.gamma_abc_g1_static s 1 g0
    (by omega)
  have hvnone := accumLoop_oob E pvk.vk.gamma_abc_g1_variable v
    (s.length + 1) gS hne (by omega)
  simp only [hg0, hgS, hvnone]

/-- Witness for C1 at a concrete input: the key holds one static coefficient
(the constant term) and one variable coefficient, the static input vector is
empty and the variable input vector has the single scalar `3`; the claim's
layout hypotheses hold, yet the call panics instead of returning
`5 + 3 * 7`. -/
theorem claim1_witness :
    prepare_inputs_with_variables intEngine pvkOneVar [] [(3 : Int)] = none :=
  claim1_variable_offset_panics intEngine pvkOneVar [] [(3 : Int)]
    (by rfl) (by rfl) (by simp)

/-- C2 counterexample: against a key with two static coefficients and one
variable coefficient, the empty static input vector (a static-count
mismatch: 0 is not 2 - 1) together with two variable inputs (a
variable-count mismatch: 2 is not 1) preserves the combined total, so the
call does not return the `MalformedVerifyingKey` error the claim demands
(it panics on an out-of-bounds variable index instead). -/
theorem claim2_counterexample :
    prepare_inputs_with_variables intEngine pvkTwoOne [] [(3 : Int), 4] ≠
      some (Except.error SynthesisError.MalformedVerifyingKey) := by
  decide

/-- C2 (amended): the validation compares only the combined total, so a lone
mismatch of the static count (with the variable count matching) or a lone
mismatch of the variable count (with the static count matching) does return
the `MalformedVerifyingKey` error, while compensating mismatches that
preserve the total are not rejected. -/
theorem claim2_amended_validation (E : PairingEngine)
    (pvk : PreparedVerifyingKey E) (s v : List E.ScalarField) :
    (v.length = pvk.vk.gamma_abc_g1_variable.length →
      s.length + 1 ≠ pvk.vk.gamma_abc_g1_static.length →
      prepare_inputs_with_variables E pvk s v =
        some (Except.error SynthesisError.MalformedVerifyingKey))
  ∧ (s.length + 1 = pvk.vk.gamma_abc_g1_static.length →
      v.length ≠ pvk.vk.gamma_abc_g1_variable.length →
      prepare_inputs_with_variables E pvk s v =
        some (Except.error SynthesisError.MalformedVerifyingKey))
  ∧ (s.length + v.length + 1 =
      pvk.vk.gamma_abc_g1_static.length +
        pvk.vk.gamma_abc_g1_variable.length →
      prepare_inputs_with_variables E pvk s v ≠
        some (Except.error SynthesisError.MalformedVerifyingKey)) := by
  refine ⟨?_, ?_, ?_⟩
  · intro h1 h2
    exact (prepare_inputs_malformed_iff E pvk s v).mpr (by omega)
  · intro h1 h2
    exact (prepare_inputs_malformed_iff E pvk s v).mpr (by omega)
  · intro h hc
    exact absurd ((prepare_inputs_malformed_iff E pvk s v).mp hc) (by omega)

/-- C3: whenever final exponentiation of the Miller-loop value succeeds with
value `t`, `verify_proof_with_prepared_inputs` returns `Ok true` exactly
when `t` equals the stored alpha-beta pairing value, and `Ok false` exactly
when it does not. -/
theorem claim3_pairing_check_boolean (E : PairingEngine)
    (pvk : PreparedVerifyingKey E) (proof : Proof E) (prepared_inputs : E.G1)
    (t : E.TargetField)
    (h : E.final_exponentiation (miller_value E pvk proof prepared_inputs) =
      some t) :
    (verify_proof_with_prepared_inputs E pvk proof prepared_inputs =
        Except.ok true ↔ t = pvk.alpha_g1_beta_g2)
  ∧ (verify_proof_with_prepared_inputs E pvk proof prepared_inputs =
        Except.ok false ↔ ¬ t = pvk.alpha_g1_beta_g2) := by
  unfold verify_proof_with_prepared_inputs
  rw [h]
  letI : DecidableEq E.TargetField := E.tfDecEq
  by_cases hc : t = pvk.alpha_g1_beta_g2
  · simp only [decide_eq_true hc, hc]
    simp
  · simp only [decide_eq_false hc, hc]
    simp [hc]

/-- Witness for C3 at a concrete input: against `pvkPair` (stored alpha-beta
value `1`) and `proofOne`, the Miller-loop value is `1`, final
exponentiation succeeds with `1`, and the proof is accepted. -/
theorem claim3_witness :
    verify_proof_with_prepared_inputs intEngine pvkPair proofOne 0 =
      Except.ok true :=
  (claim3_pairing_check_boolean intEngine pvkPair proofOne 0 1
    (by rfl)).1.mpr (by rfl)

/-- C4: `verify_proof_with_prepared_inputs` returns the `UnexpectedIdentity`
error exactly when final exponentiation of the Miller-loop value fails; and
whenever final exponentiation succeeds the result is an ordinary boolean
success, so the error and rejection outcomes are disjoint. -/
theorem claim4_unexpected_identity_iff (E : PairingEngine)
    (pvk : PreparedVerifyingKey E) (proof : Proof E)
    (prepared_inputs : E.G1) :
    (verify_proof_with_prepared_inputs E pvk proof prepared_inputs =
        Except.error SynthesisError.UnexpectedIdentity ↔
      E.final_exponentiation (miller_value E pvk proof prepared_inputs) =
        none)
  ∧ (∀ t, E.final_exponentiation
        (miller_value E pvk proof prepared_inputs) = some t →
      ∃ b : Bool, verify_proof_with_prepared_inputs E pvk proof
        prepared_inputs = Except.ok b) := by
  unfold verify_proof_with_prepared_inputs
  cases hf : E.final_exponentiation (miller_value E pvk proof prepared_inputs)
    with
  | none =>
    refine ⟨by simp, ?_⟩
    intro t ht
    exact Option.noConfusion ht
  | some t0 =>
    refine ⟨by simp, ?_⟩
    intro t ht
    exact ⟨_, rfl⟩

/-- C5: `verify_with_variables` agrees, as a whole `Result` (with a panic of
the aggregation propagated unchanged), with running
`prepare_inputs_with_variables` first and feeding its successful output to
`verify_proof_with_prepared_inputs` on the same key and proof. -/
theorem claim5_entry_points_equivalent (E : PairingEngine)
    (pvk : PreparedVerifyingKey E) (proof : Proof E)
    (s v : List E.ScalarField) :
    verify_with_variables E pvk proof s v =
      Option.map (fun r => r.bind fun prepared_inputs =>
          verify_proof_with_prepared_inputs E pvk proof prepared_inputs)
        (prepare_inputs_with_variables E pvk s v) := by
  unfold verify_with_variables
  cases prepare_inputs_with_variables E pvk s v with
  | none => rfl
  | some r =>
    cases r with
    | error e => rfl
    | ok prepared_inputs => rfl

/-- C6: `prepare_verifying_key` is total by its type, and its four fields
are the copied key, the alpha-beta pairing value, and the prepared negations
of gamma and delta. -/
theorem claim6_prepare_verifying_key_fields (E : PairingEngine)
    (vk : VerifyingKey E) :
    (prepare_verifying_key E vk).vk = vk
  ∧ (prepare_verifying_key E vk).alpha_g1_beta_g2 =
      E.pairing vk.alpha_g1 vk.beta_g2
  ∧ (prepare_verifying_key E vk).gamma_g2_neg_pc =
      E.g2prep (E.g2neg vk.gamma_g2)
  ∧ (prepare_verifying_key E vk).delta_g2_neg_pc =
      E.g2prep (E.g2neg vk.delta_g2) :=
  ⟨rfl, rfl, rfl, rfl⟩

/-- C7: whether `prepare_inputs_with_variables` produces the
`MalformedVerifyingKey` error depends only on the four lengths involved: two
calls over arbitrary (even different) engines, keys and inputs whose input
vectors and coefficient sequences have pairwise equal lengths either both
return the error or both do not — no group operation influences the error
decision. -/
theorem claim7_malformed_depends_only_on_lengths
    (E F : PairingEngine) (pvkE : PreparedVerifyingKey E)
    (pvkF : PreparedVerifyingKey F)
    (s v : List E.ScalarField) (s2 v2 : List F.ScalarField)
    (hs : s.length = s2.length) (hv : v.length = v2.length)
    (hstat : pvkE.vk.gamma_abc_g1_static.length =
      pvkF.vk.gamma_abc_g1_static.length)
    (hvar : pvkE.vk.gamma_abc_g1_variable.length =
      pvkF.vk.gamma_abc_g1_variable.length) :
    (prepare_inputs_with_variables E pvkE s v =
        some (Except.error SynthesisError.MalformedVerifyingKey) ↔
      prepare_inputs_with_variables F pvkF s2 v2 =
        some (Except.error SynthesisError.MalformedVerifyingKey)) := by
  rw [prepare_inputs_malformed_iff, prepare_inputs_malformed_iff,
    hs, hv, hstat, hvar]

/-- Witness for C7 at concrete inputs: `pvkTwoOne` and `pvkTwoOneB` share
their sequence lengths, and one static input with no variable inputs
mismatches both totals, so the error established for one transfers to the
other. -/
theorem claim7_witness :
    prepare_inputs_with_variables intEngine pvkTwoOneB [(2 : Int)] [] =
      some (Except.error SynthesisError.MalformedVerifyingKey) :=
  (claim7_malformed_depends_only_on_lengths intEngine intEngine
    pvkTwoOne pvkTwoOneB [(1 : Int)] [] [(2 : Int)] []
    rfl rfl rfl rfl).mp (by rfl)

/-- C8: `prepare_verifying_key` is deterministic: on equal keys it returns
equal prepared keys, field by field. -/
theorem claim8_prepare_verifying_key_deterministic (E : PairingEngine)
    (vk1 vk2 : VerifyingKey E) (h : vk1 = vk2) :
    prepare_verifying_key E vk1 = prepare_verifying_key E vk2
  ∧ (prepare_verifying_key E vk1).vk = (prepare_verifying_key E vk2).vk
  ∧ (prepare_verifying_key E vk1).alpha_g1_beta_g2 =
      (prepare_verifying_key E vk2).alpha_g1_beta_g2
  ∧ (prepare_verifying_key E vk1).gamma_g2_neg_pc =
      (prepare_verifying_key E vk2).gamma_g2_neg_pc
  ∧ (prepare_verifying_key E vk1).delta_g2_neg_pc =
      (prepare_verifying_key E vk2).delta_g2_neg_pc := by
  subst h
  exact ⟨rfl, rfl, rfl, rfl, rfl⟩

/-- Witness for C8 at a concrete input: preparing `vkOneVar` twice gives the
same prepared key. -/
theorem claim8_witness :
    prepare_verifying_key intEngine vkOneVar =
      prepare_verifying_key intEngine vkOneVar :=
  (claim8_prepare_verifying_key_deterministic intEngine vkOneVar vkOneVar
    rfl).1

/-- C9: the validation of `prepare_inputs_with_variables` constrains only
the total: the `MalformedVerifyingKey` error is returned exactly when
(static count + variable count + 1) differs from the combined coefficient
length, and any two splits of the same total trigger the error together. -/
theorem claim9_validation_total_only (E : PairingEngine)
    (pvk : PreparedVerifyingKey E) (s v s2 v2 : List E.ScalarField)
    (htot : s.length + v.length = s2.length + v2.length) :
    (prepare_inputs_with_variables E pvk s v =
        some (Except.error SynthesisError.MalformedVerifyingKey) ↔
      s.length + v.length + 1 ≠
        pvk.vk.gamma_abc_g1_static.length +
          pvk.vk.gamma_abc_g1_variable.length)
  ∧ (prepare_inputs_with_variables E pvk s v =
        some (Except.error SynthesisError.MalformedVerifyingKey) ↔
      prepare_inputs_with_variables E pvk s2 v2 =
        some (Except.error SynthesisError.MalformedVerifyingKey)) := by
  refine ⟨prepare_inputs_malformed_iff E pvk s v, ?_⟩
  rw [prepare_inputs_malformed_iff, prepare_inputs_malformed_iff, htot]

/-- Witness for C9 at concrete inputs: against `pvkTwoOne` (combined length
3) the splits `([1], [])` and `([], [1])` have the same total 1, and the
first errors, so the second does too. -/
theorem claim9_witness :
    prepare_inputs_with_variables intEngine pvkTwoOne [] [(1 : Int)] =
      some (Except.error SynthesisError.MalformedVerifyingKey) :=
  ((claim9_validation_total_only intEngine pvkTwoOne [(1 : Int)] [] []
    [(1 : Int)] rfl).2).mp (by rfl)

/-- C10: after the combined length check passes, the constant term
`gamma_abc_g1_static[0]` is read unconditionally, so a key whose static
coefficient sequence is empty while the variable sequence carries the whole
length (total input count + 1) passes validation and then panics: the
embedding returns `none`. -/
theorem claim10_empty_static_panics (E : PairingEngine)
    (pvk : PreparedVerifyingKey E) (s v : List E.ScalarField)
    (hempty : pvk.vk.gamma_abc_g1_static = [])
    (hvar : pvk.vk.gamma_abc_g1_variable.length =
      s.length + v.length + 1) :
    prepare_inputs_with_variables E pvk s v = none := by
  have hlen0 : pvk.vk.gamma_abc_g1_static.length = 0 := by
    rw [hempty]
    rfl
  unfold prepare_inputs_with_variables
  rw [if_neg (by omega)]
  simp only [hempty, List.get?]

/-- Witness for C10 at a concrete input: `pvkEmptyStatic` has no static
coefficient and one variable coefficient; with both input vectors empty the
total check passes (0 + 0 + 1 = 0 + 1) and the constant-term read panics. -/
theorem claim10_witness :
    prepare_inputs_with_variables intEngine pvkEmptyStatic [] [] = none :=
  claim10_empty_static_panics intEngine pvkEmptyStatic [] [] (by rfl) (by rfl)

end DarklakeGroth16
